import Mathlib

/-!
Verification development for the Esports-Betting-AI repository.

The repository contains two prediction routines:

* `AdvancedPredictionModel.predict_player_line` in `src/streamlit_app.py`
  (lines 280-349): the main "Line Prediction Calculator".
* `analyze_matchup` in `src/utils/browser.py` (lines 105-129): a randomized
  demonstration predictor.

Both are embedded below.  Python floats are modelled as exact rationals (ℚ).
The external library call `scipy.stats.norm.cdf` is not repository code; it is
modelled by passing the cdf as an explicit function parameter, and theorems
that need facts about the Gaussian cdf assume `CdfOk cdf`, a predicate
collecting qualitative properties that the true normal cdf satisfies
(values in [0,1]; value 1/2 at the mean; values below/above 1/2 strictly
below/above the mean, for positive standard deviation).

Two remarks on fidelity, recorded once here and referred to from the
definitions:

* Lines 309-314 of `src/streamlit_app.py` are, as written, a Python syntax
  error: the call `self.team_ratings.get(` opened on line 309 is never
  closed before the statement `team_strength = ...` begins.  The embedding
  uses the minimal repair (closing each `get` call), which is the only
  reading under which the function parses.  Even under that repair the
  fallback argument given to `next` is `self.team_ratings["Default"]`,
  i.e. the rating VALUE `1.0`, which is then passed to `dict.get` as a KEY;
  since `1.0` is not a key of the table, the lookup yields `None`, the
  division `opponent_strength / team_strength` raises `TypeError`, the
  blanket `except` at line 347 catches it, and the function returns `None`.
  This is modelled by `lookupStrength` returning `none` when no key of the
  ratings table is a substring of the given name.

* When the computed `sigma` is not positive, `scipy.stats.norm.cdf` returns
  `nan` (the scale parameter is invalid), so `p_over` and `edge` are `nan`
  and `int(abs(edge) * 12)` at line 328 raises `ValueError`; the blanket
  `except` catches it and the function returns `None`.  This is modelled by
  the `if 0 < sigma` guard in `predict_player_line`.
-/

namespace EsportsBetting

/-- Contiguous-sublist test on lists of characters, used to model Python's
substring operator `in` on strings. -/
def subLst (pat : List Char) : List Char → Bool
  | [] => pat.isEmpty
  | c :: t => pat.isPrefixOf (c :: t) || subLst pat t

/-- Python's `pat in hay` substring test. -/
def containsStr (hay pat : String) : Bool :=
  subLst pat.toList hay.toList

/-- One entry of `AdvancedPredictionModel.position_factors`
(`src/streamlit_app.py` lines 262-268): a kill modifier and a base sigma. -/
structure PositionFactors where
  kill_mod : ℚ
  sigma : ℚ
deriving DecidableEq

/-- The table `self.position_factors` (lines 262-268).  Decimal literals of
the source are written as exact rationals. -/
def position_factors : List (String × PositionFactors) :=
  [("Duelist", ⟨115/100, 35/10⟩),
   ("Initiator", ⟨105/100, 3⟩),
   ("Controller", ⟨95/100, 25/10⟩),
   ("Sentinel", ⟨90/100, 2⟩),
   ("Flex", ⟨1, 3⟩)]

/-- Line 288: `self.position_factors.get(position, self.position_factors["Flex"])`:
exact-key dictionary lookup with the Flex profile as default. -/
def positionFactorsOf (position : String) : PositionFactors :=
  (((position_factors.find? (fun kv => kv.1 == position)).map (fun kv => kv.2))).getD ⟨1, 3⟩

/-- The table `self.team_ratings` (lines 271-278), in insertion order. -/
def team_ratings : List (String × ℚ) :=
  [("Team Liquid", 115/100),
   ("Fnatic", 110/100),
   ("DRX", 108/100),
   ("LOUD", 105/100),
   ("Optic Gaming", 103/100),
   ("Default", 1)]

/-- Lines 309-314 (under the minimal parenthesis repair, see the file
header): `self.team_ratings.get(next((k for k in self.team_ratings if k in name),
self.team_ratings["Default"]))`.  The generator yields the first key of the
table (in insertion order) that is a substring of `name`; `dict.get` of that
key returns its rating.  When no key matches, `next` returns the fallback
`self.team_ratings["Default"]`, i.e. the float `1.0`, and `dict.get(1.0)`
returns `None` because `1.0` is not a key; this is the `none` case. -/
def lookupStrength (name : String) : Option ℚ :=
  (team_ratings.find? (fun kv => containsStr name kv.1)).map (fun kv => kv.2)

/-- Agent lists of `ValorantDataService._agent_to_role` (lines 244-255). -/
def duelistAgents : List String := ["jett", "phoenix", "raze", "reyna", "neon", "yoru"]

/-- Initiator agent names of `_agent_to_role`. -/
def initiatorAgents : List String := ["sova", "breach", "kayo", "skye", "fade", "gekko"]

/-- Controller agent names of `_agent_to_role`. -/
def controllerAgents : List String := ["omen", "viper", "brimstone", "astra", "harbor"]

/-- Sentinel agent names of `_agent_to_role`. -/
def sentinelAgents : List String := ["sage", "killjoy", "cypher", "chamber", "deadlock"]

/-- The method `ValorantDataService._agent_to_role` (lines 244-255):
lower-case the agent name, test substring membership against each role's
agent list in order, default "Flex". -/
def agent_to_role (agent_name : String) : String :=
  let a := agent_name.toLower
  if duelistAgents.any (fun s => containsStr a s) then "Duelist"
  else if initiatorAgents.any (fun s => containsStr a s) then "Initiator"
  else if controllerAgents.any (fun s => containsStr a s) then "Controller"
  else if sentinelAgents.any (fun s => containsStr a s) then "Sentinel"
  else "Flex"

/-- The player record handed to `predict_player_line` (dict `player_data`).
Optional fields model keys that may be absent from the dict. -/
structure PlayerData where
  name : String
  team : String
  kills : Option ℚ
  agent : Option String
  position : Option String
  hs_percent : Option ℚ
deriving DecidableEq

/-- The `match_context` dict; only the key `'opponent'` is read (line 308). -/
structure MatchContext where
  opponent : String
deriving DecidableEq

/-- The history dict produced by `ValorantDataService.get_player_history`
(lines 230-238).  `matches_analyzed`, `last_5_kills` and `hs_percent` are
`Option` because the fallback dict of lines 291-296 lacks those keys and the
code reads them with `dict.get` and a default. -/
structure History where
  avg_kills : ℚ
  kill_std : ℚ
  last_5_avg : ℚ
  matches_analyzed : Option Nat
  last_5_kills : Option (List ℚ)
  hs_percent : Option ℚ
deriving DecidableEq

/-- The fallback history dict of lines 291-296, used when
`get_player_history` returns `None`: `avg_kills` and `last_5_avg` both equal
`player_data.get('kills', 20)`, `kill_std` is `3.0`, and the keys
`matches_analyzed`, `last_5_kills`, `hs_percent` are absent.  (The dict also
carries `primary_role`, which is never read afterwards.) -/
def defaultHistory (pd : PlayerData) : History :=
  { avg_kills := pd.kills.getD 20
    kill_std := 3
    last_5_avg := pd.kills.getD 20
    matches_analyzed := none
    last_5_kills := none
    hs_percent := none }

/-- Lines 284-286: position is `player_data.get('position', 'Flex')`,
overridden by `_agent_to_role(player_data['agent'])` when the `'agent'` key
is present. -/
def positionOf (pd : PlayerData) : String :=
  match pd.agent with
  | some a => agent_to_role a
  | none => pd.position.getD "Flex"

/-- Line 299: `recent_weight = 0.7 if history.get('matches_analyzed', 0) >= 5 else 0.5`. -/
def recentWeight (h : History) : ℚ :=
  if 5 ≤ h.matches_analyzed.getD 0 then 7/10 else 5/10

/-- Lines 300-302: `weighted_avg = last_5_avg * recent_weight + avg_kills * (1 - recent_weight)`. -/
def weighted_avg (h : History) : ℚ :=
  h.last_5_avg * recentWeight h + h.avg_kills * (1 - recentWeight h)

/-- Line 320: `kill_std / avg_kills if avg_kills > 0 else 1.0`. -/
def consistencyOf (h : History) : ℚ :=
  if 0 < h.avg_kills then h.kill_std / h.avg_kills else 1

/-- Line 321: `1.2 if strength_ratio < 0.9 or strength_ratio > 1.1 else 1.0`. -/
def volatilityOf (q : ℚ) : ℚ :=
  if q < 9/10 ∨ 11/10 < q then 12/10 else 1

/-- Lines 308-314: both team-strength lookups; `none` when either lookup
fails (which, in the source, ends in a `TypeError` caught by the blanket
`except`, see the file header). -/
def strengthsOf (pd : PlayerData) (ctx : MatchContext) : Option (ℚ × ℚ) :=
  match lookupStrength ctx.opponent, lookupStrength pd.team with
  | some os, some ts => some (os, ts)
  | _, _ => none

/-- Lines 298-322 assembled: the final mean (line 317) and the dynamic sigma
(line 322) computed by `predict_player_line`, `none` when a strength lookup
fails. -/
def muSigmaOf (pd : PlayerData) (ctx : MatchContext) (hist : Option History) : Option (ℚ × ℚ) :=
  match strengthsOf pd ctx with
  | none => none
  | some (os, ts) =>
    let pos_data := positionFactorsOf (positionOf pd)
    let history := hist.getD (defaultHistory pd)
    let adjusted_mu := weighted_avg history * pos_data.kill_mod
    let srat := os / ts
    let matchup_factor := 1 + (1 - srat) * (15/100)
    some (adjusted_mu * matchup_factor,
          pos_data.sigma * consistencyOf history * volatilityOf srat)

/-- Python's `round(x, 1)` modelled over ℚ (round to one decimal place;
Python's round-half-to-even and this round-half-up differ only on exact
decimal ties, which no claim depends on). -/
def round1 (q : ℚ) : ℚ :=
  ((round (10 * q) : ℤ) : ℚ) / 10

/-- The result dict of lines 330-345.  `confidence` is the number of stars:
the source stores the string `"⭐" * confidence`. -/
structure Prediction where
  player : String
  team : String
  position : String
  agent : String
  line : ℚ
  pOver : ℚ
  edge : ℚ
  confidence : Nat
  mu : ℚ
  sigma : ℚ
  matchup : String
  last5 : List ℚ
  hsPercent : ℚ
deriving DecidableEq

/-- The method `AdvancedPredictionModel.predict_player_line`
(`src/streamlit_app.py` lines 280-349).  The history argument models the
result of the network call `data_service.get_player_history` (line 291,
`none` selects the fallback dict via Python's `or`).  The `cdf` argument
models `scipy.stats.norm.cdf`.  Line 325 of the source sets
`line = final_mu`, and line 326 computes `p_over = 1 - norm.cdf(line,
final_mu, sigma)`.  Line 328: `min(3, max(1, int(abs(edge) * 12)))`, where
Python's `int` truncates (equals the floor on the non-negative argument).
The `none` branches model the exceptions described in the file header, all
caught by the blanket `except` of lines 347-349 which returns `None`. -/
def predict_player_line (cdf : ℚ → ℚ → ℚ → ℚ) (pd : PlayerData) (ctx : MatchContext)
    (hist : Option History) : Option Prediction :=
  let position := positionOf pd
  let history := hist.getD (defaultHistory pd)
  match muSigmaOf pd ctx hist with
  | none => none
  | some (final_mu, sigma) =>
    if 0 < sigma then
      let line := final_mu
      let p_over := 1 - cdf line final_mu sigma
      let edge := p_over - 5/10
      let confidence := (min 3 (max 1 ⌊|edge| * 12⌋)).toNat
      some { player := pd.name
             team := pd.team
             position := position
             agent := pd.agent.getD "Unknown"
             line := round1 line
             pOver := p_over
             edge := edge
             confidence := confidence
             mu := round1 final_mu
             sigma := round1 sigma
             matchup := pd.team ++ " vs " ++ ctx.opponent
             last5 := history.last_5_kills.getD []
             hsPercent := pd.hs_percent.getD (history.hs_percent.getD 0) }
    else none

/-- Qualitative properties of the Gaussian cdf `x ↦ CDF_normal(x, μ, σ)`
that the theorems below rely on: values lie in [0,1]; at the mean the value
is exactly 1/2; strictly below (above) the mean the value is strictly below
(above) 1/2 — all for positive σ, the only regime in which the source
reaches the cdf with valid arguments. -/
structure CdfOk (cdf : ℚ → ℚ → ℚ → ℚ) : Prop where
  nonneg : ∀ x mu s, 0 ≤ cdf x mu s
  le_one : ∀ x mu s, cdf x mu s ≤ 1
  median : ∀ mu s, 0 < s → cdf mu mu s = 5/10
  lt_half : ∀ x mu s, 0 < s → x < mu → cdf x mu s < 5/10
  gt_half : ∀ x mu s, 0 < s → mu < x → 5/10 < cdf x mu s

/-- A concrete executable function with the qualitative Gaussian-cdf
properties of `CdfOk`, used to instantiate witnesses and counterexamples. -/
def stepCdf (x mu _s : ℚ) : ℚ :=
  if x < mu then 2/5 else if mu < x then 3/5 else 1/2

/-- The witness cdf satisfies all properties demanded by `CdfOk`. -/
theorem cdfok_step : CdfOk stepCdf := by
  refine ⟨?_, ?_, ?_, ?_, ?_⟩ <;> intros <;> simp only [stepCdf] <;>
    split <;> (try split) <;> linarith

/-- Line 789 of `src/streamlit_app.py`:
`df['Bet'] = df['P(OVER)'].apply(lambda x: "OVER" if x > 0.55 else "UNDER")`.
Line 404 (`ValorantAnalyst.generate_analysis`) applies the same rule
`'OVER' if player_data['P(OVER)'] > 0.55 else 'UNDER'`. -/
def betOf (x : ℚ) : String :=
  if 11/20 < x then "OVER" else "UNDER"

/-- Lines 456-458 of `src/streamlit_app.py` (`render_player_card`): the card
badge shows OVER when `player_data['P(OVER)'] > 0.5`, else UNDER. -/
def cardOverUnder (x : ℚ) : String :=
  if 1/2 < x then "OVER" else "UNDER"

/-- Lines 672-680 of `src/streamlit_app.py`: the Underdog ingestion path is
the only place a bookmaker betting line enters the pipeline, and it stores
that line in the player's kills field: `'kills': float(player.get('line', 20))`.
So the bookmaker-supplied line of a player record is its `kills` value
(default 20). -/
def bookmakerLine (pd : PlayerData) : ℚ :=
  pd.kills.getD 20

/-- The value drawn by `np.random.choice(['Weak', 'Average', 'Strong'])` at
line 121 of `src/utils/browser.py`. -/
inductive OppStrength
  | Weak
  | Average
  | Strong
deriving DecidableEq

/-- The `performance_boost` dict of `analyze_matchup`
(`src/utils/browser.py` lines 111-115). -/
def performance_boost : OppStrength → ℚ
  | .Weak => 12/10
  | .Average => 1
  | .Strong => 8/10

/-- String label of the drawn opponent strength, used in `matchup_note`. -/
def OppStrength.label : OppStrength → String
  | .Weak => "Weak"
  | .Average => "Average"
  | .Strong => "Strong"

/-- The result dict of `analyze_matchup` (`src/utils/browser.py` lines 124-129). -/
structure MatchupAnalysis where
  predicted_kills : ℚ
  over_under : String
  confidence : String
  matchup_note : String
deriving DecidableEq

/-- The function `analyze_matchup` of `src/utils/browser.py` (lines 105-129).
Its two random draws are made explicit as arguments: `base_kills` models
`np.random.normal(loc=player_line['line'], scale=2)` (line 118) and `opp`
models `np.random.choice(['Weak', 'Average', 'Strong'])` (line 121).  Only
the `'line'` entry of the `player_line` row is read. -/
def analyze_matchup (line : ℚ) (opponent_team : String) (base_kills : ℚ)
    (opp : OppStrength) : MatchupAnalysis :=
  let predicted_kills := base_kills * performance_boost opp
  { predicted_kills := round1 predicted_kills
    over_under := if line < predicted_kills then "OVER" else "UNDER"
    confidence := if 3/2 < |predicted_kills - line| then "High" else "Medium"
    matchup_note := "vs " ++ opponent_team ++ " (" ++ opp.label ++ " opponent)" }

/-- Structural lemma: whenever `predict_player_line` returns a result, the
mean/sigma pair was computed, sigma is positive (otherwise the source raises
and returns `None`), and the probability, edge and confidence fields carry
exactly the expressions of source lines 325-328, with the cdf evaluated at
the mean itself. -/
theorem predict_some_spec {cdf : ℚ → ℚ → ℚ → ℚ} {pd : PlayerData} {ctx : MatchContext}
    {hist : Option History} {r : Prediction}
    (h : predict_player_line cdf pd ctx hist = some r) :
    ∃ mu s, muSigmaOf pd ctx hist = some (mu, s) ∧ 0 < s ∧
      r.pOver = 1 - cdf mu mu s ∧
      r.edge = (1 - cdf mu mu s) - 5/10 ∧
      r.confidence = (min 3 (max 1 ⌊|(1 - cdf mu mu s) - 5/10| * 12⌋)).toNat := by
  unfold predict_player_line at h
  rcases hms : muSigmaOf pd ctx hist with _ | ⟨mu, s⟩ <;> rw [hms] at h
  · exact absurd h (by simp)
  · dsimp only at h
    split at h
    · rename_i hpos
      injection h with h2
      subst h2
      exact ⟨mu, s, rfl, hpos, rfl, rfl, rfl⟩
    · exact absurd h (by simp)

/-- Concrete evaluation: the strength lookups for a Fnatic player facing
Team Liquid both succeed. -/
theorem eval_sample_strengths :
    strengthsOf ⟨"a", "Fnatic", some 20, none, none, none⟩ ⟨"Team Liquid"⟩ =
      some (115/100, 110/100) := rfl

/-- Concrete evaluation: mean and sigma for a Fnatic player with 20 kills
facing Team Liquid, no fetched history (fallback dict): mean
20 * (437/440) = 437/22 and sigma 3 * (3/20) * 1 = 9/20. -/
theorem eval_sample_mu :
    muSigmaOf ⟨"a", "Fnatic", some 20, none, none, none⟩ ⟨"Team Liquid"⟩ none =
      some (437/22, 9/20) := by
  have hpf : positionFactorsOf (positionOf ⟨"a", "Fnatic", some 20, none, none, none⟩) =
      ⟨1, 3⟩ := rfl
  norm_num [muSigmaOf, eval_sample_strengths, hpf, defaultHistory, weighted_avg,
    recentWeight, consistencyOf, volatilityOf]

/-- Concrete evaluation: the full prediction for the sample Fnatic player. -/
theorem eval_sample :
    predict_player_line stepCdf ⟨"a", "Fnatic", some 20, none, none, none⟩ ⟨"Team Liquid"⟩ none =
      some ⟨"a", "Fnatic", "Flex", "Unknown", 199/10, 1/2, 0, 1, 199/10, 1/2,
        "Fnatic vs Team Liquid", [], 0⟩ := by
  have hpf : positionFactorsOf (positionOf ⟨"a", "Fnatic", some 20, none, none, none⟩) =
      ⟨1, 3⟩ := rfl
  have hpos : positionOf ⟨"a", "Fnatic", some 20, none, none, none⟩ = "Flex" := rfl
  have happ : "Fnatic" ++ " vs " ++ "Team Liquid" = "Fnatic vs Team Liquid" := rfl
  have hpf2 : positionFactorsOf "Flex" = ⟨1, 3⟩ := rfl
  norm_num [predict_player_line, muSigmaOf, eval_sample_strengths, hpf, hpf2, hpos, happ,
    defaultHistory, weighted_avg, recentWeight, consistencyOf, volatilityOf, stepCdf,
    round1, round_eq]

/-- Concrete evaluation: a NEGATIVE betting line (kills = -5) flows through
the arithmetic unchecked and yields an ordinary-looking prediction. -/
theorem eval_neg :
    predict_player_line stepCdf ⟨"a", "Fnatic", some (-5), none, none, none⟩ ⟨"Team Liquid"⟩ none =
      some ⟨"a", "Fnatic", "Flex", "Unknown", -5, 1/2, 0, 1, -5, 3,
        "Fnatic vs Team Liquid", [], 0⟩ := by
  have hst : strengthsOf ⟨"a", "Fnatic", some (-5), none, none, none⟩ ⟨"Team Liquid"⟩ =
      some (115/100, 110/100) := rfl
  have hpf : positionFactorsOf (positionOf ⟨"a", "Fnatic", some (-5), none, none, none⟩) =
      ⟨1, 3⟩ := rfl
  have hpos : positionOf ⟨"a", "Fnatic", some (-5), none, none, none⟩ = "Flex" := rfl
  have happ : "Fnatic" ++ " vs " ++ "Team Liquid" = "Fnatic vs Team Liquid" := rfl
  have hpf2 : positionFactorsOf "Flex" = ⟨1, 3⟩ := rfl
  norm_num [predict_player_line, muSigmaOf, hst, hpf, hpf2, hpos, happ,
    defaultHistory, weighted_avg, recentWeight, consistencyOf, volatilityOf, stepCdf,
    round1, round_eq]

/-- Concrete evaluation: with a fetched history whose sample standard
deviation is zero (identical samples), the computed sigma is exactly 0 —
there is no epsilon floor in the source. -/
theorem eval_zero_std :
    muSigmaOf ⟨"a", "Fnatic", some 20, none, none, none⟩ ⟨"Team Liquid"⟩
      (some ⟨20, 0, 20, some 10, none, none⟩) = some (437/22, 0) := by
  have hpf : positionFactorsOf (positionOf ⟨"a", "Fnatic", some 20, none, none, none⟩) =
      ⟨1, 3⟩ := rfl
  norm_num [muSigmaOf, eval_sample_strengths, hpf, weighted_avg,
    recentWeight, consistencyOf, volatilityOf]

/-- C1: the claim says `probabilityOver = 1 - CDF_normal(line, finalMean, sigma)`
with `line` the bookmaker-supplied betting line.  This is false of the code:
line 325 sets `line = final_mu`, so the cdf is never evaluated at the
bookmaker line.  For any cdf with the Gaussian properties there is a
concrete well-formed input (bookmaker line 20, positive samples and team
strengths) on which the returned probability (exactly 1/2) differs from
`1 - cdf(bookmakerLine, finalMean, sigma)`. -/
theorem C1_counterexample :
    ∃ (cdf : ℚ → ℚ → ℚ → ℚ) (pd : PlayerData) (ctx : MatchContext) (r : Prediction) (mu s : ℚ),
      CdfOk cdf ∧ predict_player_line cdf pd ctx none = some r ∧
      muSigmaOf pd ctx none = some (mu, s) ∧
      r.pOver ≠ 1 - cdf (bookmakerLine pd) mu s := by
  refine ⟨stepCdf, ⟨"a", "Fnatic", some 20, none, none, none⟩, ⟨"Team Liquid"⟩,
    ⟨"a", "Fnatic", "Flex", "Unknown", 199/10, 1/2, 0, 1, 199/10, 1/2,
      "Fnatic vs Team Liquid", [], 0⟩, 437/22, 9/20,
    cdfok_step, eval_sample, eval_sample_mu, ?_⟩
  norm_num [bookmakerLine, stepCdf]

/-- C1 (amended): for every input on which the calculator returns a result,
`probabilityOver = 1 - cdf(finalMean, finalMean, sigma)`: the line used in
the probability computation is the computed mean itself (line 325), not the
bookmaker line, and consequently the returned probability is exactly 1/2. -/
theorem C1_amended (cdf : ℚ → ℚ → ℚ → ℚ) (hc : CdfOk cdf) (pd : PlayerData)
    (ctx : MatchContext) (hist : Option History) (mu s : ℚ) (r : Prediction)
    (h : predict_player_line cdf pd ctx hist = some r)
    (hm : muSigmaOf pd ctx hist = some (mu, s)) :
    r.pOver = 1 - cdf mu mu s ∧ r.pOver = 1/2 := by
  obtain ⟨mu', s', hm', hs', hp, _, _⟩ := predict_some_spec h
  rw [hm] at hm'
  simp only [Option.some.injEq, Prod.mk.injEq] at hm'
  obtain ⟨rfl, rfl⟩ := hm'
  refine ⟨hp, ?_⟩
  rw [hp, hc.median mu s hs']
  norm_num

/-- Witness for C1 (amended) at the concrete Fnatic-vs-Team-Liquid input. -/
theorem C1_witness :
    CdfOk stepCdf ∧
    predict_player_line stepCdf ⟨"a", "Fnatic", some 20, none, none, none⟩
        ⟨"Team Liquid"⟩ none =
      some ⟨"a", "Fnatic", "Flex", "Unknown", 199/10, 1/2, 0, 1, 199/10, 1/2,
        "Fnatic vs Team Liquid", [], 0⟩ ∧
    muSigmaOf ⟨"a", "Fnatic", some 20, none, none, none⟩ ⟨"Team Liquid"⟩ none =
      some (437/22, 9/20) ∧
    ((⟨"a", "Fnatic", "Flex", "Unknown", 199/10, 1/2, 0, 1, 199/10, 1/2,
        "Fnatic vs Team Liquid", [], 0⟩ : Prediction).pOver =
        1 - stepCdf (437/22) (437/22) (9/20) ∧
     (⟨"a", "Fnatic", "Flex", "Unknown", 199/10, 1/2, 0, 1, 199/10, 1/2,
        "Fnatic vs Team Liquid", [], 0⟩ : Prediction).pOver = 1/2) :=
  ⟨cdfok_step, eval_sample, eval_sample_mu,
    C1_amended stepCdf cdfok_step _ _ none (437/22) (9/20) _ eval_sample eval_sample_mu⟩

/-- C2: because line 325 assigns the computed mean to the line, every result
returned by the calculator has P(OVER) exactly 0.5, Edge exactly 0, and the
minimum confidence tier (one star), independently of the player's actual
betting line. -/
theorem C2_degenerate (cdf : ℚ → ℚ → ℚ → ℚ) (hc : CdfOk cdf) (pd : PlayerData)
    (ctx : MatchContext) (hist : Option History) (r : Prediction)
    (h : predict_player_line cdf pd ctx hist = some r) :
    r.pOver = 1/2 ∧ r.edge = 0 ∧ r.confidence = 1 := by
  obtain ⟨mu, s, _, hs, hp, he, hcnf⟩ := predict_some_spec h
  have hmed := hc.median mu s hs
  refine ⟨?_, ?_, ?_⟩
  · rw [hp, hmed]; norm_num
  · rw [he, hmed]; norm_num
  · rw [hcnf, hmed]; norm_num

/-- Witness for C2 at the concrete Fnatic-vs-Team-Liquid input. -/
theorem C2_witness :
    CdfOk stepCdf ∧
    predict_player_line stepCdf ⟨"a", "Fnatic", some 20, none, none, none⟩
        ⟨"Team Liquid"⟩ none =
      some ⟨"a", "Fnatic", "Flex", "Unknown", 199/10, 1/2, 0, 1, 199/10, 1/2,
        "Fnatic vs Team Liquid", [], 0⟩ ∧
    ((⟨"a", "Fnatic", "Flex", "Unknown", 199/10, 1/2, 0, 1, 199/10, 1/2,
        "Fnatic vs Team Liquid", [], 0⟩ : Prediction).pOver = 1/2 ∧
     (⟨"a", "Fnatic", "Flex", "Unknown", 199/10, 1/2, 0, 1, 199/10, 1/2,
        "Fnatic vs Team Liquid", [], 0⟩ : Prediction).edge = 0 ∧
     (⟨"a", "Fnatic", "Flex", "Unknown", 199/10, 1/2, 0, 1, 199/10, 1/2,
        "Fnatic vs Team Liquid", [], 0⟩ : Prediction).confidence = 1) :=
  ⟨cdfok_step, eval_sample,
    C2_degenerate stepCdf cdfok_step _ _ none _ eval_sample⟩

/-- C3: the claim that the prediction operation is deterministic with no
hidden or random state is false of the repository: `analyze_matchup` in
`src/utils/browser.py` draws `base_kills` and the opponent-strength label
from `np.random` (lines 118 and 121), so two invocations with identical
inputs (line 20, opponent Fnatic) can return different outputs — here OVER
versus UNDER — depending on the draws. -/
theorem C3_counterexample :
    analyze_matchup 20 "Fnatic" 25 OppStrength.Average ≠
      analyze_matchup 20 "Fnatic" 15 OppStrength.Average := by
  intro h
  have hov := congrArg MatchupAnalysis.over_under h
  norm_num [analyze_matchup, performance_boost] at hov
  exact absurd hov (by decide)

/-- C3 (amended): both prediction routines are deterministic once ALL their
inputs are fixed — including, for `predict_player_line`, the history fetched
over the network, and, for `analyze_matchup`, the two values drawn from the
random number generator.  Randomness (and the network fetch) is the only
hidden state: equal inputs and equal draws give equal outputs. -/
theorem C3_amended (cdf : ℚ → ℚ → ℚ → ℚ) (pd pd' : PlayerData) (ctx ctx' : MatchContext)
    (hist hist' : Option History) (l l' : ℚ) (t t' : String) (b b' : ℚ)
    (o o' : OppStrength) (h1 : pd = pd') (h2 : ctx = ctx') (h3 : hist = hist')
    (h4 : l = l') (h5 : t = t') (h6 : b = b') (h7 : o = o') :
    predict_player_line cdf pd ctx hist = predict_player_line cdf pd' ctx' hist' ∧
    analyze_matchup l t b o = analyze_matchup l' t' b' o' := by
  subst h1 h2 h3 h4 h5 h6 h7
  exact ⟨rfl, rfl⟩

/-- Witness for C3 (amended) at concrete identical inputs and draws. -/
theorem C3_witness :
    (⟨"a", "Fnatic", some 20, none, none, none⟩ : PlayerData) =
      ⟨"a", "Fnatic", some 20, none, none, none⟩ ∧
    (predict_player_line stepCdf ⟨"a", "Fnatic", some 20, none, none, none⟩
        ⟨"Team Liquid"⟩ none =
      predict_player_line stepCdf ⟨"a", "Fnatic", some 20, none, none, none⟩
        ⟨"Team Liquid"⟩ none ∧
     analyze_matchup 20 "Fnatic" 25 OppStrength.Average =
      analyze_matchup 20 "Fnatic" 25 OppStrength.Average) :=
  ⟨rfl, C3_amended stepCdf _ _ _ _ none none 20 20 "Fnatic" "Fnatic" 25 25
    OppStrength.Average OppStrength.Average rfl rfl rfl rfl rfl rfl rfl⟩

/-- C4: the claim that a negative line fails fast with an explicit
`InvalidInputError` is false: no such error type exists anywhere in the
repository, there is no input validation, and a player record carrying the
negative betting line -5 flows through the arithmetic and produces an
ordinary-looking prediction (with P(OVER) = 1/2) instead of an error. -/
theorem C4_counterexample :
    bookmakerLine ⟨"a", "Fnatic", some (-5), none, none, none⟩ < 0 ∧
    ∃ r, predict_player_line stepCdf ⟨"a", "Fnatic", some (-5), none, none, none⟩
        ⟨"Team Liquid"⟩ none = some r := by
  refine ⟨by norm_num [bookmakerLine], ⟨_, eval_neg⟩⟩

/-- C4 (amended): the calculator performs no input validation at all: it
returns a result for EVERY input — negative lines and samples included —
whenever the two team-strength lookups succeed and the computed sigma is
positive; the only failure mode is returning None (from the blanket
`except`), never an explicit error value. -/
theorem C4_amended (cdf : ℚ → ℚ → ℚ → ℚ) (pd : PlayerData) (ctx : MatchContext)
    (hist : Option History) (mu s : ℚ)
    (hm : muSigmaOf pd ctx hist = some (mu, s)) (hs : 0 < s) :
    ∃ r, predict_player_line cdf pd ctx hist = some r := by
  unfold predict_player_line
  rw [hm]
  dsimp only
  rw [if_pos hs]
  exact ⟨_, rfl⟩

/-- Witness for C4 (amended) at the concrete negative-line input. -/
theorem C4_witness :
    muSigmaOf ⟨"a", "Fnatic", some 20, none, none, none⟩ ⟨"Team Liquid"⟩ none =
      some (437/22, 9/20) ∧
    (0 : ℚ) < 9/20 ∧
    ∃ r, predict_player_line stepCdf ⟨"a", "Fnatic", some 20, none, none, none⟩
        ⟨"Team Liquid"⟩ none = some r :=
  ⟨eval_sample_mu, by norm_num,
    C4_amended stepCdf _ _ none (437/22) (9/20) eval_sample_mu (by norm_num)⟩

/-- C5: for all valid inputs (any input on which the calculator returns a
result, with any cdf having the Gaussian range property), the returned
probabilityOver lies in the closed interval [0,1]. -/
theorem C5_bounds (cdf : ℚ → ℚ → ℚ → ℚ) (hc : CdfOk cdf) (pd : PlayerData)
    (ctx : MatchContext) (hist : Option History) (r : Prediction)
    (h : predict_player_line cdf pd ctx hist = some r) :
    0 ≤ r.pOver ∧ r.pOver ≤ 1 := by
  obtain ⟨mu, s, _, _, hp, _, _⟩ := predict_some_spec h
  have h1 := hc.nonneg mu mu s
  have h2 := hc.le_one mu mu s
  rw [hp]
  constructor <;> linarith

/-- Witness for C5 at the concrete Fnatic-vs-Team-Liquid input. -/
theorem C5_witness :
    CdfOk stepCdf ∧
    predict_player_line stepCdf ⟨"a", "Fnatic", some 20, none, none, none⟩
        ⟨"Team Liquid"⟩ none =
      some ⟨"a", "Fnatic", "Flex", "Unknown", 199/10, 1/2, 0, 1, 199/10, 1/2,
        "Fnatic vs Team Liquid", [], 0⟩ ∧
    (0 ≤ (⟨"a", "Fnatic", "Flex", "Unknown", 199/10, 1/2, 0, 1, 199/10, 1/2,
        "Fnatic vs Team Liquid", [], 0⟩ : Prediction).pOver ∧
     (⟨"a", "Fnatic", "Flex", "Unknown", 199/10, 1/2, 0, 1, 199/10, 1/2,
        "Fnatic vs Team Liquid", [], 0⟩ : Prediction).pOver ≤ 1) :=
  ⟨cdfok_step, eval_sample,
    C5_bounds stepCdf cdfok_step _ _ none _ eval_sample⟩

/-- C6: the claim that sigma is floored at a small positive epsilon and is
strictly positive even when the sample standard deviation is zero is false:
line 322 computes `sigma = pos_sigma * consistency * volatility` with no
floor, so a history with `kill_std = 0` (identical samples) and positive
average yields sigma exactly 0, and the prediction then returns None (the
cdf call produces nan and line 328 raises) instead of using a floored
positive sigma. -/
theorem C6_counterexample :
    muSigmaOf ⟨"a", "Fnatic", some 20, none, none, none⟩ ⟨"Team Liquid"⟩
      (some ⟨20, 0, 20, some 10, none, none⟩) = some (437/22, 0) ∧
    predict_player_line stepCdf ⟨"a", "Fnatic", some 20, none, none, none⟩
      ⟨"Team Liquid"⟩ (some ⟨20, 0, 20, some 10, none, none⟩) = none := by
  refine ⟨eval_zero_std, ?_⟩
  unfold predict_player_line
  rw [eval_zero_std]
  dsimp only
  rw [if_neg (lt_irrefl 0)]

/-- C6 (amended): sigma equals
`positionBaseDispersion[position] * consistency * volatilityFactor` exactly,
with NO epsilon floor; in particular when the sample standard deviation is 0
and the historical average is positive, sigma is 0 (not a positive epsilon). -/
theorem C6_amended (pd : PlayerData) (ctx : MatchContext) (hist : Option History)
    (h' : History) (os ts : ℚ)
    (hh : h' = hist.getD (defaultHistory pd))
    (hst : strengthsOf pd ctx = some (os, ts)) :
    muSigmaOf pd ctx hist = some
      (weighted_avg h' * (positionFactorsOf (positionOf pd)).kill_mod *
        (1 + (1 - os/ts) * (15/100)),
       (positionFactorsOf (positionOf pd)).sigma * consistencyOf h' *
        volatilityOf (os/ts)) ∧
    (h'.kill_std = 0 → 0 < h'.avg_kills →
      (positionFactorsOf (positionOf pd)).sigma * consistencyOf h' *
        volatilityOf (os/ts) = 0) := by
  subst hh
  constructor
  · unfold muSigmaOf
    rw [hst]
  · intro h0 hpos
    unfold consistencyOf
    rw [if_pos hpos, h0]
    norm_num

/-- Witness for C6 (amended) at the concrete zero-standard-deviation history. -/
theorem C6_witness :
    (⟨20, 0, 20, some 10, none, none⟩ : History) =
      (some (⟨20, 0, 20, some 10, none, none⟩ : History)).getD
        (defaultHistory ⟨"a", "Fnatic", some 20, none, none, none⟩) ∧
    strengthsOf ⟨"a", "Fnatic", some 20, none, none, none⟩ ⟨"Team Liquid"⟩ =
      some (115/100, 110/100) ∧
    (muSigmaOf ⟨"a", "Fnatic", some 20, none, none, none⟩ ⟨"Team Liquid"⟩
        (some ⟨20, 0, 20, some 10, none, none⟩) = some
        (weighted_avg ⟨20, 0, 20, some 10, none, none⟩ *
          (positionFactorsOf (positionOf ⟨"a", "Fnatic", some 20, none, none, none⟩)).kill_mod *
          (1 + (1 - (115/100)/(110/100)) * (15/100)),
         (positionFactorsOf (positionOf ⟨"a", "Fnatic", some 20, none, none, none⟩)).sigma *
          consistencyOf ⟨20, 0, 20, some 10, none, none⟩ *
          volatilityOf ((115/100)/(110/100))) ∧
     ((⟨20, 0, 20, some 10, none, none⟩ : History).kill_std = 0 →
      0 < (⟨20, 0, 20, some 10, none, none⟩ : History).avg_kills →
      (positionFactorsOf (positionOf ⟨"a", "Fnatic", some 20, none, none, none⟩)).sigma *
        consistencyOf ⟨20, 0, 20, some 10, none, none⟩ *
        volatilityOf ((115/100)/(110/100)) = 0)) :=
  ⟨rfl, rfl, C6_amended ⟨"a", "Fnatic", some 20, none, none, none⟩ ⟨"Team Liquid"⟩
    (some ⟨20, 0, 20, some 10, none, none⟩) ⟨20, 0, 20, some 10, none, none⟩
    (115/100) (110/100) rfl rfl⟩

/-- C7: for every returned prediction, the confidence tier equals
`clamp(round(|edge| * 12), 1, 3)` and is one of the three discrete values
1, 2, 3.  (Because edge is always exactly 0, the tier is in fact always 1,
and the spec's `round` and the source's truncating `int` coincide there.) -/
theorem C7_tier (cdf : ℚ → ℚ → ℚ → ℚ) (hc : CdfOk cdf) (pd : PlayerData)
    (ctx : MatchContext) (hist : Option History) (r : Prediction)
    (h : predict_player_line cdf pd ctx hist = some r) :
    ((r.confidence : ℤ) = min 3 (max 1 (round (|r.edge| * 12)))) ∧
    (r.confidence = 1 ∨ r.confidence = 2 ∨ r.confidence = 3) := by
  obtain ⟨mu, s, _, hs, _, he, hcnf⟩ := predict_some_spec h
  have hmed := hc.median mu s hs
  have he0 : r.edge = 0 := by rw [he, hmed]; norm_num
  have hc1 : r.confidence = 1 := by rw [hcnf, hmed]; norm_num
  rw [he0, hc1]
  norm_num

/-- Witness for C7 at the concrete Fnatic-vs-Team-Liquid input. -/
theorem C7_witness :
    CdfOk stepCdf ∧
    predict_player_line stepCdf ⟨"a", "Fnatic", some 20, none, none, none⟩
        ⟨"Team Liquid"⟩ none =
      some ⟨"a", "Fnatic", "Flex", "Unknown", 199/10, 1/2, 0, 1, 199/10, 1/2,
        "Fnatic vs Team Liquid", [], 0⟩ ∧
    ((((⟨"a", "Fnatic", "Flex", "Unknown", 199/10, 1/2, 0, 1, 199/10, 1/2,
        "Fnatic vs Team Liquid", [], 0⟩ : Prediction).confidence : ℤ) =
      min 3 (max 1 (round (|(⟨"a", "Fnatic", "Flex", "Unknown", 199/10, 1/2, 0, 1,
        199/10, 1/2, "Fnatic vs Team Liquid", [], 0⟩ : Prediction).edge| * 12)))) ∧
     ((⟨"a", "Fnatic", "Flex", "Unknown", 199/10, 1/2, 0, 1, 199/10, 1/2,
        "Fnatic vs Team Liquid", [], 0⟩ : Prediction).confidence = 1 ∨
      (⟨"a", "Fnatic", "Flex", "Unknown", 199/10, 1/2, 0, 1, 199/10, 1/2,
        "Fnatic vs Team Liquid", [], 0⟩ : Prediction).confidence = 2 ∨
      (⟨"a", "Fnatic", "Flex", "Unknown", 199/10, 1/2, 0, 1, 199/10, 1/2,
        "Fnatic vs Team Liquid", [], 0⟩ : Prediction).confidence = 3)) :=
  ⟨cdfok_step, eval_sample,
    C7_tier stepCdf cdfok_step _ _ none _ eval_sample⟩

/-- C8: for every prediction the calculator produces, the recommended side
shown by the optimizer table (threshold 0.55, line 789), the analyst text
(threshold 0.55, line 404) and the player-card badge (threshold 0.5, lines
456-458) all equal `OVER if probabilityOver > 0.55 else UNDER` — and since
probabilityOver is always 1/2, that side is always UNDER. -/
theorem C8_side (cdf : ℚ → ℚ → ℚ → ℚ) (hc : CdfOk cdf) (pd : PlayerData)
    (ctx : MatchContext) (hist : Option History) (r : Prediction)
    (h : predict_player_line cdf pd ctx hist = some r) :
    (betOf r.pOver = if 11/20 < r.pOver then "OVER" else "UNDER") ∧
    (cardOverUnder r.pOver = if 11/20 < r.pOver then "OVER" else "UNDER") ∧
    betOf r.pOver = "UNDER" := by
  obtain ⟨mu, s, _, hs, hp, _, _⟩ := predict_some_spec h
  have hp2 : r.pOver = 1/2 := by rw [hp, hc.median mu s hs]; norm_num
  rw [hp2]
  unfold betOf cardOverUnder
  norm_num

/-- Witness for C8 at the concrete Fnatic-vs-Team-Liquid input. -/
theorem C8_witness :
    CdfOk stepCdf ∧
    predict_player_line stepCdf ⟨"a", "Fnatic", some 20, none, none, none⟩
        ⟨"Team Liquid"⟩ none =
      some ⟨"a", "Fnatic", "Flex", "Unknown", 199/10, 1/2, 0, 1, 199/10, 1/2,
        "Fnatic vs Team Liquid", [], 0⟩ ∧
    ((betOf (⟨"a", "Fnatic", "Flex", "Unknown", 199/10, 1/2, 0, 1, 199/10, 1/2,
        "Fnatic vs Team Liquid", [], 0⟩ : Prediction).pOver =
      if 11/20 < (⟨"a", "Fnatic", "Flex", "Unknown", 199/10, 1/2, 0, 1, 199/10, 1/2,
        "Fnatic vs Team Liquid", [], 0⟩ : Prediction).pOver then "OVER" else "UNDER") ∧
     (cardOverUnder (⟨"a", "Fnatic", "Flex", "Unknown", 199/10, 1/2, 0, 1, 199/10, 1/2,
        "Fnatic vs Team Liquid", [], 0⟩ : Prediction).pOver =
      if 11/20 < (⟨"a", "Fnatic", "Flex", "Unknown", 199/10, 1/2, 0, 1, 199/10, 1/2,
        "Fnatic vs Team Liquid", [], 0⟩ : Prediction).pOver then "OVER" else "UNDER") ∧
     betOf (⟨"a", "Fnatic", "Flex", "Unknown", 199/10, 1/2, 0, 1, 199/10, 1/2,
        "Fnatic vs Team Liquid", [], 0⟩ : Prediction).pOver = "UNDER") :=
  ⟨cdfok_step, eval_sample,
    C8_side stepCdf cdfok_step _ _ none _ eval_sample⟩

/-- C9: the claim that an unknown team or opponent name falls back to the
neutral strength 1.0 and never fails is right about the intent (the ratings
table carries a "Default" entry of 1.00 for exactly that purpose) but the
code is wrong: for an opponent such as "Cloud9" that matches no ratings key,
the strength lookup yields None (the fallback VALUE 1.0 is passed to
`dict.get` as a key — and lines 309-314 are, as written, a syntax error),
the division then raises, and the calculator returns None instead of a
prediction. -/
theorem C9_unknown_team :
    lookupStrength "Cloud9" = none ∧
    predict_player_line stepCdf ⟨"p", "Fnatic", some 20, none, none, none⟩
      ⟨"Cloud9"⟩ none = none :=
  ⟨rfl, rfl⟩

/-- C10: for every input on which the mean is computed, the weighted average
feeding it equals `recentAverage * w + historicalAverage * (1-w)` with
`w = 0.7` when at least 5 samples (`matches_analyzed`) are available and
`w = 0.5` otherwise. -/
theorem C10_weights (pd : PlayerData) (ctx : MatchContext) (hist : Option History)
    (h' : History) (os ts mu s : ℚ)
    (hh : h' = hist.getD (defaultHistory pd))
    (hst : strengthsOf pd ctx = some (os, ts))
    (hm : muSigmaOf pd ctx hist = some (mu, s)) :
    (5 ≤ h'.matches_analyzed.getD 0 →
      mu = (h'.last_5_avg * (7/10) + h'.avg_kills * (1 - 7/10)) *
        (positionFactorsOf (positionOf pd)).kill_mod * (1 + (1 - os/ts) * (15/100))) ∧
    (h'.matches_analyzed.getD 0 < 5 →
      mu = (h'.last_5_avg * (5/10) + h'.avg_kills * (1 - 5/10)) *
        (positionFactorsOf (positionOf pd)).kill_mod * (1 + (1 - os/ts) * (15/100))) := by
  subst hh
  unfold muSigmaOf at hm
  rw [hst] at hm
  dsimp only at hm
  simp only [Option.some.injEq, Prod.mk.injEq] at hm
  obtain ⟨hmu, -⟩ := hm
  constructor <;> intro hma
  · rw [← hmu]
    unfold weighted_avg recentWeight
    rw [if_pos hma]
  · rw [← hmu]
    unfold weighted_avg recentWeight
    rw [if_neg (by omega)]

/-- Witness for C10 at the concrete Fnatic-vs-Team-Liquid input (fallback
history, 0 analyzed matches, so the w = 0.5 branch applies). -/
theorem C10_witness :
    defaultHistory ⟨"a", "Fnatic", some 20, none, none, none⟩ =
      (none : Option History).getD
        (defaultHistory ⟨"a", "Fnatic", some 20, none, none, none⟩) ∧
    strengthsOf ⟨"a", "Fnatic", some 20, none, none, none⟩ ⟨"Team Liquid"⟩ =
      some (115/100, 110/100) ∧
    muSigmaOf ⟨"a", "Fnatic", some 20, none, none, none⟩ ⟨"Team Liquid"⟩ none =
      some (437/22, 9/20) ∧
    ((5 ≤ (defaultHistory ⟨"a", "Fnatic", some 20, none, none, none⟩).matches_analyzed.getD 0 →
      (437/22 : ℚ) =
        ((defaultHistory ⟨"a", "Fnatic", some 20, none, none, none⟩).last_5_avg * (7/10) +
         (defaultHistory ⟨"a", "Fnatic", some 20, none, none, none⟩).avg_kills * (1 - 7/10)) *
        (positionFactorsOf (positionOf ⟨"a", "Fnatic", some 20, none, none, none⟩)).kill_mod *
        (1 + (1 - (115/100)/(110/100)) * (15/100))) ∧
     ((defaultHistory ⟨"a", "Fnatic", some 20, none, none, none⟩).matches_analyzed.getD 0 < 5 →
      (437/22 : ℚ) =
        ((defaultHistory ⟨"a", "Fnatic", some 20, none, none, none⟩).last_5_avg * (5/10) +
         (defaultHistory ⟨"a", "Fnatic", some 20, none, none, none⟩).avg_kills * (1 - 5/10)) *
        (positionFactorsOf (positionOf ⟨"a", "Fnatic", some 20, none, none, none⟩)).kill_mod *
        (1 + (1 - (115/100)/(110/100)) * (15/100)))) :=
  ⟨rfl, rfl, eval_sample_mu,
    C10_weights ⟨"a", "Fnatic", some 20, none, none, none⟩ ⟨"Team Liquid"⟩ none
      (defaultHistory ⟨"a", "Fnatic", some 20, none, none, none⟩)
      (115/100) (110/100) (437/22) (9/20) rfl rfl eval_sample_mu⟩

end EsportsBetting
